import Mathlib

/-!
Verification development for the Metaculus dashboard (`src/app.py`).

The program loads a CSV of timestamped probability observations, drops rows
with a missing `End Time`, selects the last row labeled `recency_weighted`,
converts its probability to a percentage, and renders a gauge figure and a
dual-axis timeline figure.

Shallow embedding conventions:
- a CSV row is a `Row`; its `End Time` field is `Option ℤ` (a missing value,
  pandas `NaN`, is `none`; a present date/time is an integer key, e.g.
  `20240101`);
- probabilities are exact rationals `ℚ` (the Python floats carry no overflow
  or rounding relevant to the claims checked here, which are stated as exact);
- a pandas positional lookup `iloc[-1]` on an empty selection raises
  `IndexError`; it is embedded as `List.getLast?`, whose `none` result models
  that uncaught lookup failure.
-/

/-- One row of `forecast_data.csv`: `End Time`, `Probability Yes`,
`Forecaster Username` (the weighting-scheme label), `Forecaster Count`. -/
structure Row where
  endTime : Option ℤ
  probabilityYes : ℚ
  forecasterUsername : String
  forecasterCount : ℕ
  deriving DecidableEq, Repr

/-- `df = df.dropna(subset=['End Time'])` (app.py line 56): drop every row
whose `End Time` field is missing, keeping order. -/
def dropnaEndTime (rows : List Row) : List Row :=
  rows.filter (fun r => r.endTime.isSome)

/-- `df[df['Forecaster Username'] == scheme]` (app.py lines 59, 105, 106):
the subframe of rows whose scheme label equals `scheme`, in original order. -/
def filterScheme (rows : List Row) (scheme : String) : List Row :=
  rows.filter (fun r => r.forecasterUsername == scheme)

/-- `df[df['Forecaster Username'] == scheme].iloc[-1]` (app.py lines 59 and 133):
positional last row of the filtered subframe. `iloc[-1]` on an empty selection
raises an uncaught `IndexError`; that failure is the `none` result here. -/
def selectLatest (rows : List Row) (scheme : String) : Option Row :=
  (filterScheme rows scheme).getLast?

/-- `latest_recency` (app.py line 59): last row labeled `recency_weighted`. -/
def latest_recency (rows : List Row) : Option Row :=
  selectLatest rows "recency_weighted"

/-- The probability-to-percentage conversion used at app.py line 60
(`float(...) * 100`) and line 125 (`.mul(100)`). -/
def probToPercent (p : ℚ) : ℚ :=
  p * 100

/-- `current_probability` (app.py line 60): the selected row's
`Probability Yes` times 100; `none` when the selection itself failed. -/
def current_probability (rows : List Row) : Option ℚ :=
  (latest_recency rows).map (fun r => probToPercent r.probabilityYes)

/-- `current_forecaster_count` (app.py line 61): the selected row's
`Forecaster Count`. -/
def current_forecaster_count (rows : List Row) : Option ℕ :=
  (latest_recency rows).map (fun r => r.forecasterCount)

/-- Row `a` is no later than row `b` when both carry an `End Time`. -/
def timeLE (a b : Row) : Prop :=
  ∀ ta tb : ℤ, a.endTime = some ta → b.endTime = some tb → ta ≤ tb

/-- `"{:.1f}%".format`-style rendering of a percentage (app.py line 211):
round to one decimal digit and print with a trailing percent sign. -/
def formatPercent1 (q : ℚ) : String :=
  let t : ℤ := round (q * 10)
  toString (t / 10) ++ "." ++ toString (t % 10) ++ "%"

/-- The probability text inside the page-header `H2` (app.py lines 207-216):
`f"{current_probability:.1f}%"`. -/
def headerProbabilityString (rows : List Row) : Option String :=
  (current_probability rows).map formatPercent1

/-- One `steps` entry of the gauge configuration (app.py lines 80-84):
a half-axis band `range=[lo, hi]` filled with `color`. -/
structure GaugeStep where
  lo : ℚ
  hi : ℚ
  color : String
  deriving DecidableEq, Repr

/-- The `go.Indicator` gauge trace built by `create_main_figure`
(app.py lines 67-95): axis range, needle/bar value, bar color, color bands. -/
structure GaugeSpec where
  axisRange : ℚ × ℚ
  value : ℚ
  barColor : String
  steps : List GaugeStep
  deriving DecidableEq, Repr

/-- `create_main_figure` (app.py lines 67-95). The module-level
`current_probability` it reads is passed explicitly; the line-71 `None` guard
never fires in the CSV variant (line 60 always binds a float), so the gauge
trace is always present. -/
def create_main_figure (currentProbability : ℚ) : GaugeSpec :=
  { axisRange := (0, 100)
    value := currentProbability
    barColor := "#FFC107"
    steps := [⟨0, 33, "#004D40"⟩, ⟨33, 66, "#E1BE6A"⟩, ⟨66, 100, "#DC3220"⟩] }

/-- The data-bearing content of the figure built by `create_timeline_figure`
(app.py lines 97-197): the bar trace over the whole frame, the two filtered
scatter traces, the last-Metaculus annotation, and both y-axis ranges. -/
structure TimelineFigure where
  barX : List (Option ℤ)
  barY : List ℕ
  metaculusX : List (Option ℤ)
  metaculusY : List ℚ
  recencyX : List (Option ℤ)
  recencyY : List ℚ
  lastMetaculusMark : Option (Option ℤ × ℚ)
  yaxisRange : ℚ × ℚ
  yaxis2Range : ℚ × ℚ
  deriving DecidableEq, Repr

/-- `df['Forecaster Count'].max()` (app.py line 182) over the loaded frame:
pandas maximum of the nonnegative integer column (the frame is nonempty
whenever line 59 succeeded). -/
def maxForecasterCount (rows : List Row) : ℕ :=
  (rows.map (fun r => r.forecasterCount)).foldr max 0

/-- `create_timeline_figure` (app.py lines 97-197). The `Bar` trace
(lines 109-119) ranges over every row of `df`; the two `Scatter` traces
(lines 122-130 and 149-157) range over the `metaculus_prediction` and
`recency_weighted` subframes; the annotation (lines 132-147) marks
`metaculus_pred.iloc[-1]`; `yaxis` has `range=[0, 100]` (line 175) and
`yaxis2` has `range=[0, df['Forecaster Count'].max() * 1.2]` (line 182). -/
def create_timeline_figure (rows : List Row) : TimelineFigure :=
  let metaculus_pred := filterScheme rows "metaculus_prediction"
  let recency_weighted := filterScheme rows "recency_weighted"
  { barX := rows.map (fun r => r.endTime)
    barY := rows.map (fun r => r.forecasterCount)
    metaculusX := metaculus_pred.map (fun r => r.endTime)
    metaculusY := metaculus_pred.map (fun r => probToPercent r.probabilityYes)
    recencyX := recency_weighted.map (fun r => r.endTime)
    recencyY := recency_weighted.map (fun r => probToPercent r.probabilityYes)
    lastMetaculusMark := (selectLatest rows "metaculus_prediction").map
      (fun r => (r.endTime, probToPercent r.probabilityYes))
    yaxisRange := (0, 100)
    yaxis2Range := (0, (maxForecasterCount rows : ℚ) * (12 / 10)) }

/-- Modelled from the spec: the API-variant Data Loader is not under `src/`
(only the CSV-variant `app.py` is present). Per spec §4.1/§6, the JSON body
carries `community_prediction.q2` and `prediction_count`, either of which may
be missing. -/
structure ApiPayload where
  communityPredictionQ2 : Option ℚ
  predictionCount : Option ℕ
  deriving DecidableEq, Repr

/-- Modelled from the spec: the outcome of the one HTTP GET of the API
variant (missing from `src/`) — a parsed 200 response, a non-200 status, a
transport exception, or a JSON-parse exception (spec §4.1, §7). -/
inductive ApiResponse where
  | success (payload : ApiPayload)
  | httpStatus (code : ℕ)
  | transportError
  | parseError
  deriving DecidableEq, Repr

/-- An `ApiResponse` that is not a parsed 200 response. -/
def ApiResponse.isFailure : ApiResponse → Bool
  | .success _ => false
  | _ => true

/-- Modelled from the spec: the current-snapshot record of the API variant —
a probability in [0,1] and a sample count rendered as text, `int | "N/A"`
(spec §4.1, §4.2). -/
structure Snapshot where
  probability : ℚ
  sampleCount : String
  deriving DecidableEq, Repr

/-- Modelled from the spec: the API-variant Data Loader body (missing from
`src/`). Failures are caught and become the "no data" sentinel `none`;
on success, a missing probability field defaults to `0` and a missing count
renders as `"N/A"` (spec §4.1, §7). -/
def loadFromApi : ApiResponse → Option Snapshot
  | .success p =>
      some { probability := p.communityPredictionQ2.getD 0
             sampleCount := match p.predictionCount with
               | some n => toString n
               | none => "N/A" }
  | _ => none

/-- Modelled from the spec: what the Page Renderer shows for the current
snapshot in the API variant (missing from `src/`) — either a designated
error state or the percentage and count (spec §4.2, §7). -/
inductive PageState where
  | errorState
  | showing (percent : ℚ) (count : String)
  deriving DecidableEq, Repr

/-- Modelled from the spec: the API-variant Page Renderer dispatch on the
"no data" sentinel (missing from `src/`): `none` renders the designated
error state instead of throwing (spec §4.2, §7). -/
def renderSnapshot : Option Snapshot → PageState
  | none => .errorState
  | some s => .showing (probToPercent s.probability) s.sampleCount

/-- The 3-row fixture CSV of spec §8.6: rows dated 2024-01-01/02/03 with
probabilities 0.2/0.5/0.8, labeled with the scheme in use and carrying
forecaster counts 10/20/30. -/
def fixtureRows : List Row :=
  [ { endTime := some 20240101, probabilityYes := 2 / 10,
      forecasterUsername := "recency_weighted", forecasterCount := 10 },
    { endTime := some 20240102, probabilityYes := 5 / 10,
      forecasterUsername := "recency_weighted", forecasterCount := 20 },
    { endTime := some 20240103, probabilityYes := 8 / 10,
      forecasterUsername := "recency_weighted", forecasterCount := 30 } ]

/-- A concrete matching row dated 1 (earliest). -/
def c1row1 : Row :=
  { endTime := some 1, probabilityYes := 1 / 5,
    forecasterUsername := "recency_weighted", forecasterCount := 10 }

/-- A concrete non-matching row dated 2. -/
def c1row2 : Row :=
  { endTime := some 2, probabilityYes := 3 / 5,
    forecasterUsername := "metaculus_prediction", forecasterCount := 20 }

/-- A concrete matching row dated 3 (most recent). -/
def c1row3 : Row :=
  { endTime := some 3, probabilityYes := 4 / 5,
    forecasterUsername := "recency_weighted", forecasterCount := 30 }

/-- A concrete observation set ordered by End Time with two
`recency_weighted` rows around a `metaculus_prediction` row. -/
def c1rows : List Row :=
  [c1row1, c1row2, c1row3]

/-- A concrete matching row that carries an End Time. -/
def c9row1 : Row :=
  { endTime := some 1, probabilityYes := 1 / 2,
    forecasterUsername := "recency_weighted", forecasterCount := 5 }

/-- A concrete trailing matching row whose End Time is missing. -/
def c9row2 : Row :=
  { endTime := none, probabilityYes := 9 / 10,
    forecasterUsername := "recency_weighted", forecasterCount := 7 }

/-- A concrete observation set whose last matching row lacks an End Time. -/
def c9rows : List Row :=
  [c9row1, c9row2]

/-- A concrete row labeled with a scheme that is neither
`metaculus_prediction` nor `recency_weighted`, with the largest count. -/
def c10row3 : Row :=
  { endTime := some 3, probabilityYes := 3 / 5,
    forecasterUsername := "community_unweighted", forecasterCount := 99 }

/-- A concrete observation set mixing both plotted schemes and one
other-labeled row. -/
def c10rows : List Row :=
  [ { endTime := some 1, probabilityYes := 1 / 5,
      forecasterUsername := "metaculus_prediction", forecasterCount := 10 },
    { endTime := some 2, probabilityYes := 2 / 5,
      forecasterUsername := "recency_weighted", forecasterCount := 20 },
    c10row3 ]

/-- Every element of a list of naturals is bounded by its `foldr max 0`. -/
theorem le_foldr_max (l : List ℕ) : ∀ c ∈ l, c ≤ l.foldr max 0 := by
  induction l with
  | nil => simp
  | cons a t ih =>
    intro c hc
    rcases List.mem_cons.mp hc with h | h
    · subst h
      exact le_max_left _ _
    · exact (ih c h).trans (le_max_right _ _)

/-- The `foldr max 0` of a nonempty list of naturals is one of its elements. -/
theorem foldr_max_mem (l : List ℕ) (h : l ≠ []) : l.foldr max 0 ∈ l := by
  induction l with
  | nil => exact absurd rfl h
  | cons a t ih =>
    by_cases ht : t = []
    · subst ht
      simp
    · rcases le_total a (t.foldr max 0) with hle | hle
      · rw [List.foldr_cons, max_eq_right hle]
        exact List.mem_cons_of_mem _ (ih ht)
      · rw [List.foldr_cons, max_eq_left hle]
        exact List.mem_cons_self _ _

/-- C1: for every observation set ordered by End Time whose
`recency_weighted` subframe is `pre ++ [r]` (so `r` is exactly the last
matching row), `current_probability` is 100 times the Probability Yes of
`r` — never of an earlier matching row, each of which is no later than `r`
— and `current_forecaster_count` is the Forecaster Count of that same row. -/
theorem aggregator_current_is_last_matching
    (rows pre : List Row) (r : Row)
    (hsorted : rows.Pairwise timeLE)
    (hsplit : filterScheme rows "recency_weighted" = pre ++ [r]) :
    current_probability rows = some (r.probabilityYes * 100) ∧
    current_forecaster_count rows = some r.forecasterCount ∧
    ∀ q ∈ pre, timeLE q r := by
  have hlast : latest_recency rows = some r := by
    unfold latest_recency selectLatest
    rw [hsplit]
    exact List.getLast?_concat _
  refine ⟨?_, ?_, ?_⟩
  · simp [current_probability, hlast, probToPercent]
  · simp [current_forecaster_count, hlast]
  · have hsub : (filterScheme rows "recency_weighted").Pairwise timeLE := by
      unfold filterScheme
      exact List.Pairwise.sublist (List.filter_sublist _) hsorted
    rw [hsplit] at hsub
    have hparts := List.pairwise_append.mp hsub
    intro q hq
    exact hparts.2.2 q hq r (by simp)

/-- Witness for C1 at the concrete sorted set `c1rows`, whose matching
subframe is `[c1row1] ++ [c1row3]`. -/
theorem aggregator_current_is_last_matching_witness :
    current_probability c1rows = some (4 / 5 * 100) ∧
    current_forecaster_count c1rows = some 30 := by
  have h12 : timeLE c1row1 c1row2 := by
    intro ta tb h1 h2
    simp [c1row1] at h1
    simp [c1row2] at h2
    omega
  have h13 : timeLE c1row1 c1row3 := by
    intro ta tb h1 h2
    simp [c1row1] at h1
    simp [c1row3] at h2
    omega
  have h23 : timeLE c1row2 c1row3 := by
    intro ta tb h1 h2
    simp [c1row2] at h1
    simp [c1row3] at h2
    omega
  have hsorted : c1rows.Pairwise timeLE := by
    unfold c1rows
    refine List.Pairwise.cons ?_ (List.Pairwise.cons ?_ (List.pairwise_singleton _ _))
    · intro b hb
      simp only [List.mem_cons, List.not_mem_nil, or_false] at hb
      rcases hb with rfl | rfl
      · exact h12
      · exact h13
    · intro b hb
      simp only [List.mem_cons, List.not_mem_nil, or_false] at hb
      rcases hb with rfl
      exact h23
  have h := aggregator_current_is_last_matching c1rows [c1row1] c1row3 hsorted rfl
  exact ⟨h.1, h.2.1⟩

/-- C2: loading the 3-row fixture with rows dated 2024-01-01/02/03 and
probabilities 0.2/0.5/0.8 yields the header probability string "80.0%"
(the `:.1f` rendering of the current probability). -/
theorem fixture_header_shows_80 :
    headerProbabilityString fixtureRows = some "80.0%" := by
  have h1 : current_probability fixtureRows = some 80 := by
    have hsel : latest_recency fixtureRows
        = some { endTime := some 20240103, probabilityYes := 8 / 10,
                 forecasterUsername := "recency_weighted", forecasterCount := 30 } := rfl
    rw [current_probability, hsel]
    simp [probToPercent]
    norm_num
  have hr : round ((80 : ℚ) * 10) = 800 := by
    norm_num [round_eq]
  rw [headerProbabilityString, h1]
  simp only [Option.map_some', formatPercent1, hr]
  decide

/-- C3: whenever no row of the observation set carries the requested
weighting-scheme label, selecting the current observation for that label
fails (the `iloc[-1]` lookup error, embedded as `none`) instead of
producing any row. -/
theorem selectLatest_absent_scheme_fails (rows : List Row) (scheme : String)
    (h : ∀ r ∈ rows, r.forecasterUsername ≠ scheme) :
    selectLatest rows scheme = none := by
  unfold selectLatest filterScheme
  have hnil : rows.filter (fun r => r.forecasterUsername == scheme) = [] := by
    rw [List.filter_eq_nil_iff]
    intro a ha
    simpa using h a ha
  rw [hnil]
  rfl

/-- Witness for C3: the concrete set `c1rows` has no row labeled
`never_requested`, and selection for that label yields `none`. -/
theorem selectLatest_absent_scheme_fails_witness :
    selectLatest c1rows "never_requested" = none :=
  selectLatest_absent_scheme_fails c1rows "never_requested" (by decide)

/-- C4: the probability-to-percentage conversion is exactly multiplication
by 100, it is monotone on [0,1], and it sends 0.437 to exactly 43.7. -/
theorem probToPercent_exact_monotone :
    (∀ p : ℚ, probToPercent p = p * 100) ∧
    (∀ p q : ℚ, 0 ≤ p → q ≤ 1 → p ≤ q → probToPercent p ≤ probToPercent q) ∧
    probToPercent (437 / 1000) = 437 / 10 := by
  refine ⟨fun p => rfl, ?_, by norm_num [probToPercent]⟩
  intro p q _ _ hpq
  unfold probToPercent
  nlinarith

/-- Witness for C4 at 0.25 ≤ 0.5 and at the exact input 0.437. -/
theorem probToPercent_exact_monotone_witness :
    probToPercent (1 / 4) ≤ probToPercent (1 / 2) ∧
    probToPercent (437 / 1000) = 437 / 10 :=
  ⟨probToPercent_exact_monotone.2.1 (1 / 4) (1 / 2) (by norm_num) (by norm_num)
      (by norm_num),
    probToPercent_exact_monotone.2.2⟩

/-- C5: for every nonempty loaded observation set, the upper bound of the
timeline secondary (forecaster-count) axis equals the maximum Forecaster
Count over all rows multiplied by the per-variant constant k = 1.2, where
`maxForecasterCount` is indeed attained by a row and dominates every row. -/
theorem timeline_yaxis2_bound (rows : List Row) (h : rows ≠ []) :
    (create_timeline_figure rows).yaxis2Range.2
      = (maxForecasterCount rows : ℚ) * (12 / 10) ∧
    maxForecasterCount rows ∈ rows.map (fun r => r.forecasterCount) ∧
    ∀ r ∈ rows, r.forecasterCount ≤ maxForecasterCount rows := by
  refine ⟨rfl, ?_, ?_⟩
  · exact foldr_max_mem _ (by simpa using h)
  · intro r hr
    exact le_foldr_max _ _ (List.mem_map_of_mem _ hr)

/-- Witness for C5 at the fixture with counts [10, 20, 30]: the maximum is
30 and the axis bound is 30 × 1.2 = 36. -/
theorem timeline_yaxis2_bound_witness :
    (create_timeline_figure fixtureRows).yaxis2Range.2 = 36 ∧
    maxForecasterCount fixtureRows = 30 := by
  have h := timeline_yaxis2_bound fixtureRows (by simp [fixtureRows])
  have hm : maxForecasterCount fixtureRows = 30 := by decide
  refine ⟨?_, hm⟩
  rw [h.1, hm]
  norm_num

/-- C6: for every current probability, the gauge has axis range [0,100],
its bar value is that probability, and it has exactly the three fixed
color bands (0,33), (33,66), (66,100), which cover all of [0,100). -/
theorem gauge_spec_fixed (p : ℚ) :
    (create_main_figure p).axisRange = (0, 100) ∧
    (create_main_figure p).value = p ∧
    (create_main_figure p).steps.map (fun s => (s.lo, s.hi))
      = [(0, 33), (33, 66), (66, 100)] ∧
    (create_main_figure p).steps.length = 3 ∧
    ∀ x : ℚ, 0 ≤ x → x < 100 →
      ∃ s ∈ (create_main_figure p).steps, s.lo ≤ x ∧ x < s.hi := by
  refine ⟨rfl, rfl, rfl, rfl, ?_⟩
  intro x hx0 hx100
  by_cases h33 : x < 33
  · exact ⟨⟨0, 33, "#004D40"⟩, by simp [create_main_figure], hx0, h33⟩
  · by_cases h66 : x < 66
    · exact ⟨⟨33, 66, "#E1BE6A"⟩, by simp [create_main_figure],
        le_of_not_lt h33, h66⟩
    · exact ⟨⟨66, 100, "#DC3220"⟩, by simp [create_main_figure],
        le_of_not_lt h66, hx100⟩

/-- Witness for C6 at probability 50: the bar value is 50 and some band
contains 50. -/
theorem gauge_spec_fixed_witness :
    (create_main_figure 50).value = 50 ∧
    ∃ s ∈ (create_main_figure 50).steps, s.lo ≤ 50 ∧ (50 : ℚ) < s.hi :=
  ⟨(gauge_spec_fixed 50).2.1,
    (gauge_spec_fixed 50).2.2.2.2 50 (by norm_num) (by norm_num)⟩

/-- C8 (API variant, modelled from the spec): every failing API outcome —
transport error, non-200 status, or JSON-parse error — loads as the
"no data" sentinel and renders as the designated error state, and a parsed
response with both fields missing defaults to probability 0 and count
"N/A". -/
theorem api_failure_renders_error_state (resp : ApiResponse)
    (h : resp.isFailure = true) :
    loadFromApi resp = none ∧
    renderSnapshot (loadFromApi resp) = PageState.errorState ∧
    loadFromApi (ApiResponse.success ⟨none, none⟩)
      = some { probability := 0, sampleCount := "N/A" } := by
  cases resp with
  | success p => simp [ApiResponse.isFailure] at h
  | httpStatus c => exact ⟨rfl, rfl, rfl⟩
  | transportError => exact ⟨rfl, rfl, rfl⟩
  | parseError => exact ⟨rfl, rfl, rfl⟩

/-- Witness for C8 at the concrete failing response HTTP 500. -/
theorem api_failure_renders_error_state_witness :
    loadFromApi (ApiResponse.httpStatus 500) = none ∧
    renderSnapshot (loadFromApi (ApiResponse.httpStatus 500))
      = PageState.errorState :=
  ⟨(api_failure_renders_error_state (ApiResponse.httpStatus 500) rfl).1,
    (api_failure_renders_error_state (ApiResponse.httpStatus 500) rfl).2.1⟩

/-- C9: selection runs on the frame with missing-End-Time rows already
dropped, so the current row is the last one that both matches the scheme
and has a non-missing End Time, and any selected row has an End Time — a
trailing matching row with a missing End Time is never selected. -/
theorem dropna_before_selection (rows : List Row) :
    latest_recency (dropnaEndTime rows)
      = (rows.filter (fun r =>
          (r.forecasterUsername == "recency_weighted") && r.endTime.isSome)).getLast? ∧
    ∀ r : Row, latest_recency (dropnaEndTime rows) = some r →
      r.endTime.isSome = true := by
  have hf : filterScheme (dropnaEndTime rows) "recency_weighted"
      = rows.filter (fun r =>
          (r.forecasterUsername == "recency_weighted") && r.endTime.isSome) := by
    unfold filterScheme dropnaEndTime
    rw [List.filter_filter]
  constructor
  · unfold latest_recency selectLatest
    rw [hf]
  · intro r hr
    unfold latest_recency selectLatest at hr
    rw [hf] at hr
    have hmem := List.mem_of_mem_getLast? hr
    exact (Bool.and_elim_right ((List.mem_filter.mp hmem).2))

/-- Witness for C9: in `c9rows` the trailing matching row has a missing
End Time, so selection returns the earlier row `c9row1`, which has one. -/
theorem dropna_before_selection_witness :
    latest_recency (dropnaEndTime c9rows) = some c9row1 ∧
    c9row1.endTime.isSome = true := by
  have h := dropna_before_selection c9rows
  have h1 : latest_recency (dropnaEndTime c9rows) = some c9row1 := by
    rw [h.1]
    rfl
  exact ⟨h1, h.2 c9row1 h1⟩

/-- C10: the forecaster-count bar series is built from every loaded row
regardless of label, while the two probability lines are built from exactly
the `metaculus_prediction` and `recency_weighted` subframes, so a row with
any other label appears in the count series, contributes to the secondary
axis maximum, and belongs to neither probability subframe. -/
theorem timeline_series_split (rows : List Row) (r : Row)
    (hmem : r ∈ rows)
    (hm : r.forecasterUsername ≠ "metaculus_prediction")
    (hw : r.forecasterUsername ≠ "recency_weighted") :
    (create_timeline_figure rows).barY = rows.map (fun x => x.forecasterCount) ∧
    r.forecasterCount ∈ (create_timeline_figure rows).barY ∧
    (r.forecasterCount : ℚ) * (12 / 10) ≤ (create_timeline_figure rows).yaxis2Range.2 ∧
    (create_timeline_figure rows).metaculusY
      = (filterScheme rows "metaculus_prediction").map
          (fun x => probToPercent x.probabilityYes) ∧
    (create_timeline_figure rows).recencyY
      = (filterScheme rows "recency_weighted").map
          (fun x => probToPercent x.probabilityYes) ∧
    r ∉ filterScheme rows "metaculus_prediction" ∧
    r ∉ filterScheme rows "recency_weighted" := by
  refine ⟨rfl, List.mem_map_of_mem _ hmem, ?_, rfl, rfl, ?_, ?_⟩
  · have hle : r.forecasterCount ≤ maxForecasterCount rows :=
      le_foldr_max _ _ (List.mem_map_of_mem _ hmem)
    have hq : (r.forecasterCount : ℚ) ≤ (maxForecasterCount rows : ℚ) := by
      exact_mod_cast hle
    calc (r.forecasterCount : ℚ) * (12 / 10)
        ≤ (maxForecasterCount rows : ℚ) * (12 / 10) := by nlinarith
      _ = (create_timeline_figure rows).yaxis2Range.2 := rfl
  · intro hcon
    exact hm (by simpa using (List.mem_filter.mp hcon).2)
  · intro hcon
    exact hw (by simpa using (List.mem_filter.mp hcon).2)

/-- Witness for C10: in `c10rows` the `community_unweighted` row with count
99 reaches the count series and the axis maximum but neither subframe. -/
theorem timeline_series_split_witness :
    (99 : ℕ) ∈ (create_timeline_figure c10rows).barY ∧
    (99 : ℚ) * (12 / 10) ≤ (create_timeline_figure c10rows).yaxis2Range.2 ∧
    c10row3 ∉ filterScheme c10rows "metaculus_prediction" ∧
    c10row3 ∉ filterScheme c10rows "recency_weighted" := by
  have h := timeline_series_split c10rows c10row3
    (by simp [c10rows]) (by decide) (by decide)
  exact ⟨h.2.1, h.2.2.1, h.2.2.2.2.2.1, h.2.2.2.2.2.2⟩
